import Mathlib

/-!
Shallow embedding of the Jarvis client voice engine (jarvis-ui).

The development models the four core components named by the design
document, each translated from its TypeScript source:

* `CL` — the continuous-listening controller (`useContinuousListening`):
  the per-frame `monitor` callback, the `MediaRecorder.onstop` handler,
  the `enabled` effect, `startListening` and `stopListening`.
* `PQ` — the ordered playback queue (`playNextAudio` inside
  `useVoiceWebSocket`, with the `isPlayingRef` / `audioQueueRef` pair).
* `VW` — the streaming transport (`useVoiceWebSocket`): `mapState`,
  `handleMessage`, `connect`, `stopStreaming` and the `ws.onclose`
  handler, over the zustand voice store (`voiceStore.ts`).
* `WW` — the wake-word listener (`useWakeWord`): the
  `recognition.onresult` scan and the `recognition.onend` restart rule.

Mutable refs of the hooks become fields of explicit state records;
browser callbacks become total step functions; a session is a fold of a
step function over a list of events.  Audio levels (floats in [0,1] in
the source) are modelled as rationals; timestamps (`Date.now()`) as
naturals in milliseconds.
-/

/-- Observable store voice state, from `voiceStore.ts`:
`'idle' | 'listening' | 'processing' | 'speaking'`. -/
inductive StoreState
  | idle
  | listening
  | processing
  | speaking
deriving DecidableEq, Repr

namespace CL

/-- Options of `useContinuousListening` (defaults 0.02, 1500 ms, 500 ms). -/
structure Config where
  silenceThreshold : ℚ
  silenceDuration : ℕ
  minSpeechDuration : ℕ
deriving DecidableEq

/-- Default option values of the hook. -/
def defaultConfig : Config :=
  { silenceThreshold := mkRat 2 100, silenceDuration := 1500, minSpeechDuration := 500 }

/-- State of one `useContinuousListening` instance together with the parts
of the voice store it writes.  Mutable refs of the hook become fields:
`chunksRef` is kept as a chunk count, `speechStartRef`/`silenceStartRef`
as optional timestamps, the `MediaRecorder`'s state as the Boolean
`recorderRecording`, the animation-frame loop as `monitorActive`, and the
media-stream tracks / `AudioContext` as the Booleans `streamLive` /
`contextOpen`.  `delivered` records, in order, the measured duration of
every segment handed to the `onSpeechEnd` callback.

The `monitor` callback is a single closure created inside `startListening`
that re-schedules itself with `requestAnimationFrame(monitor)`, so the
React state variable `isSpeaking` it branches on is the value captured
when the closure was created — its own `setIsSpeaking` calls update the
live state (read by the effects and by later renders) but never the value
the running loop sees.  The captured snapshot is the extra field
`monitorIsSpeaking`; the live React state is `isSpeaking`. -/
structure State where
  enabled : Bool
  isListening : Bool
  isSpeaking : Bool
  monitorIsSpeaking : Bool
  isRecording : Bool
  recorderRecording : Bool
  chunks : ℕ
  speechStart : Option ℕ
  silenceStart : Option ℕ
  storeState : StoreState
  audioLevel : ℚ
  streamLive : Bool
  contextOpen : Bool
  monitorActive : Bool
  delivered : List ℕ
deriving DecidableEq

/-- Initial state: hook mounted with `enabled = true`, nothing started. -/
def init : State :=
  { enabled := true, isListening := false, isSpeaking := false,
    monitorIsSpeaking := false, isRecording := false,
    recorderRecording := false, chunks := 0, speechStart := none, silenceStart := none,
    storeState := StoreState.idle, audioLevel := 0, streamLive := false,
    contextOpen := false, monitorActive := false, delivered := [] }

/-- Speech duration computed in `onstop`:
`speechStartRef.current ? Date.now() - speechStartRef.current : 0`. -/
def speechDur (now : ℕ) (s : State) : ℕ :=
  match s.speechStart with
  | some t => now - t
  | none => 0

/-- The `mediaRecorder.onstop` handler (part_003 lines 88-101): deliver the
buffered segment to `onSpeechEnd` when `speechDuration >= minSpeechDuration`
and at least one chunk is buffered, then reset the chunk buffer and both
timestamps. -/
def onstop (cfg : Config) (now : ℕ) (s : State) : State :=
  let dur := speechDur now s
  let s1 := if cfg.minSpeechDuration ≤ dur ∧ 0 < s.chunks
    then { s with delivered := s.delivered ++ [dur] }
    else s
  { s1 with chunks := 0, speechStart := none, silenceStart := none }

/-- `mediaRecorder.stop()`: the recorder becomes inactive and its `onstop`
handler runs. -/
def recorderStop (cfg : Config) (now : ℕ) (s : State) : State :=
  onstop cfg now { s with recorderRecording := false }

/-- `ondataavailable` with `e.data.size > 0` (part_003 lines 82-86): the
recorder, started with a 100 ms timeslice, pushes a chunk while recording. -/
def dataAvailable (s : State) : State :=
  if s.recorderRecording then { s with chunks := s.chunks + 1 } else s

/-- One pass of the `monitor` animation-frame callback (part_003 lines
110-161) at time `now` with measured loudness `level`.  Both occurrences
of `isSpeaking` in the callback body read the closure's stale snapshot
`monitorIsSpeaking`, while `setIsSpeaking` writes the live `isSpeaking`
field.  The level is published first; when `enabledRef` is false detection
is skipped but the loop stays alive.  Above the threshold the open block
runs whenever the snapshot is false — on every above-threshold frame in a
real session — re-setting `speechStartRef` to `now`, clearing `chunksRef`
and starting the recorder if it is inactive.  Below the threshold the
silence branch requires a true snapshot, so with a false snapshot it is
dead code and the monitor never stops the recorder. -/
def monitorTick (cfg : Config) (now : ℕ) (level : ℚ) (s : State) : State :=
  if s.monitorActive then
    let s1 := { s with audioLevel := level }
    if s1.enabled then
      if cfg.silenceThreshold < level then
        let s2 := { s1 with silenceStart := none }
        if s2.monitorIsSpeaking then s2
        else
          let s3 := { s2 with
            isSpeaking := true, isRecording := true,
            storeState := StoreState.listening, speechStart := some now,
            chunks := 0 }
          if s3.recorderRecording then s3 else { s3 with recorderRecording := true }
      else if s1.monitorIsSpeaking then
        match s1.silenceStart with
        | none => { s1 with silenceStart := some now }
        | some t =>
          if cfg.silenceDuration ≤ now - t then
            recorderStop cfg now { s1 with isSpeaking := false, isRecording := false }
          else s1
      else s1
    else s1
  else s

/-- The `enabled` effect when the prop turns true: only `enabledRef` is
updated (part_003 lines 35-37). -/
def enableEffect (s : State) : State := { s with enabled := true }

/-- The `enabled` effect when the prop turns false (part_003 lines 38-50):
clear the silence timestamp, stop the recorder if it is recording (which
runs `onstop`), and reset the speaking flags.  The effect does not touch
the media-stream tracks, the audio context or the monitor loop. -/
def disableEffect (cfg : Config) (now : ℕ) (s : State) : State :=
  let s1 := { s with enabled := false, silenceStart := none }
  let s2 := if s1.recorderRecording then recorderStop cfg now s1 else s1
  if s2.isSpeaking then { s2 with isSpeaking := false, isRecording := false } else s2

/-- `startListening` (part_003 lines 53-167): an early return when already
listening or when the store state is `'speaking'` or `'processing'`;
otherwise acquire the microphone stream and audio context, create a fresh
inactive recorder, clear the chunk buffer, mark listening, set the store
state to `'idle'` and start the monitor loop.  The freshly created
`monitor` closure captures the current value of `isSpeaking` as its
permanent snapshot. -/
def startListening (s : State) : State :=
  if s.isListening ∨ s.storeState = StoreState.speaking ∨ s.storeState = StoreState.processing
  then s
  else
    { s with
      streamLive := true, contextOpen := true, recorderRecording := false,
      chunks := 0, isListening := true, storeState := StoreState.idle,
      monitorActive := true, monitorIsSpeaking := s.isSpeaking }

/-- `stopListening` (part_003 lines 174-197): cancel the monitor loop, stop
the recorder if recording (running `onstop`), stop the stream tracks, close
the audio context, and reset the flags, store state and audio level. -/
def stopListening (cfg : Config) (now : ℕ) (s : State) : State :=
  let s1 := { s with monitorActive := false }
  let s2 := if s1.recorderRecording then recorderStop cfg now s1 else s1
  { s2 with
    streamLive := false, contextOpen := false, isListening := false,
    isSpeaking := false, isRecording := false, storeState := StoreState.idle,
    audioLevel := 0 }

/-- Events of one controller session.  `setStore` is a store-state write by
a collaborator (`useJarvisAPI.sendVoice` sets `'processing'`, `speak` sets
`'speaking'`) — the store is shared, so such writes interleave with the
controller's own. -/
inductive Event
  | tick (now : ℕ) (level : ℚ)
  | data
  | enable
  | disable (now : ℕ)
  | start
  | stop (now : ℕ)
  | setStore (st : StoreState)
deriving DecidableEq

/-- Dispatch one event to the corresponding handler. -/
def step (cfg : Config) (s : State) (e : Event) : State :=
  match e with
  | Event.tick now level => monitorTick cfg now level s
  | Event.data => dataAvailable s
  | Event.enable => enableEffect s
  | Event.disable now => disableEffect cfg now s
  | Event.start => startListening s
  | Event.stop now => stopListening cfg now s
  | Event.setStore st => { s with storeState := st }

/-- A session is the fold of `step` over its event list. -/
def run (cfg : Config) (s : State) (es : List Event) : State := es.foldl (step cfg) s

/-- Whether an event is a loudness sample strictly above the threshold. -/
def tickAbove (cfg : Config) : Event → Bool
  | Event.tick _ level => decide (cfg.silenceThreshold < level)
  | _ => false

/-- Session invariant: the monitor closure's captured `isSpeaking`
snapshot is false (so the silence-stop branch is dead and the open block
re-runs on every above-threshold sample), because `startListening` can
only execute — and hence only capture a snapshot — while `isListening` is
false, and `isSpeaking` is true only while `isListening` is. -/
def Inv (s : State) : Prop :=
  s.monitorIsSpeaking = false ∧
  (s.monitorActive = true → s.isListening = true) ∧
  (s.isSpeaking = true → s.isListening = true)

end CL

namespace PQ

/-- State of the playback queue inside `useVoiceWebSocket`:
`audioQueueRef` is the list of pending payloads (identified by a number),
`isPlayingRef`/the in-flight source is `playing`.  `startedLog` records, in
order, every payload for which a decode-and-play was started (the ghost
observation of `source.start` / `decodeAudioData`), and `finishedLog`
records each terminal outcome (`true` = `onended`, `false` = the decode or
playback failure caught by the `catch`). -/
structure State where
  queue : List ℕ
  playing : Option ℕ
  startedLog : List ℕ
  finishedLog : List (ℕ × Bool)
deriving DecidableEq

/-- Initial queue: empty, nothing playing. -/
def init : State := { queue := [], playing := none, startedLog := [], finishedLog := [] }

/-- `playNextAudio` (part_004 lines 206-230): return while an item is in
flight or the queue is empty; otherwise shift the head, mark it playing and
begin its decode-and-play. -/
def playNextAudio (s : State) : State :=
  if s.playing.isSome then s
  else
    match s.queue with
    | [] => s
    | i :: rest =>
      { queue := rest, playing := some i, startedLog := s.startedLog ++ [i],
        finishedLog := s.finishedLog }

/-- Arrival of a binary payload (part_004 lines 234-240): push onto
`audioQueueRef` and call `playNextAudio`; the caller is never blocked. -/
def enqueue (s : State) (i : ℕ) : State := playNextAudio { s with queue := s.queue ++ [i] }

/-- `source.onended`: clear `isPlayingRef` and chain to `playNextAudio`. -/
def finishOk (s : State) : State :=
  match s.playing with
  | some i =>
    playNextAudio { s with playing := none, finishedLog := s.finishedLog ++ [(i, true)] }
  | none => s

/-- The `catch` branch of `playNextAudio` (decode or playback failure):
clear `isPlayingRef` and chain to `playNextAudio`. -/
def finishFail (s : State) : State :=
  match s.playing with
  | some i =>
    playNextAudio { s with playing := none, finishedLog := s.finishedLog ++ [(i, false)] }
  | none => s

/-- Queue events: payload arrival, normal completion, terminal failure. -/
inductive Event
  | enq (i : ℕ)
  | ended
  | failed
deriving DecidableEq

/-- Dispatch one queue event. -/
def step (s : State) : Event → State
  | Event.enq i => enqueue s i
  | Event.ended => finishOk s
  | Event.failed => finishFail s

/-- A playback history is the fold of `step` over its event list. -/
def run (s : State) (es : List Event) : State := es.foldl step s

end PQ

namespace VW

/-- Connection readiness of the underlying WebSocket. -/
inductive ReadyState
  | connecting
  | openState
  | closing
  | closedState
deriving DecidableEq

/-- A JavaScript object obtained from a successful `JSON.parse` of an
inbound text frame, restricted to the fields `handleMessage` reads.  Every
field may be absent (`undefined` in the source). -/
structure EventObj where
  type : Option String
  state : Option String
  text : Option String
  wake_word : Option String
deriving DecidableEq

/-- An inbound text frame either fails `JSON.parse` or yields an object. -/
inductive TextMsg
  | malformed
  | parsed (e : EventObj)
deriving DecidableEq

/-- An inbound WebSocket message: a binary audio payload or a text frame. -/
inductive InMsg
  | binary (payload : ℕ)
  | text (m : TextMsg)
deriving DecidableEq

/-- State of one `useVoiceWebSocket` instance together with the parts of
the voice store it writes.  `wsReady` is the ready state of the WebSocket
held in `wsRef` (`none` = no socket), `connectionsCreated` counts `new
WebSocket(url)` constructions, `voiceState` is the hook's `voiceState`
React state (an `Option` because `setVoiceState(data.state)` can store an
absent value), `msgs` is the conversation log (`true` = user role), and
`fired` records the option callbacks invoked, in order.  The streaming
capture path is the processor node, audio context and stream tracks. -/
structure State where
  wsReady : Option ReadyState
  connectionsCreated : ℕ
  isConnected : Bool
  voiceState : Option String
  storeState : StoreState
  wakeWord : String
  queue : PQ.State
  msgs : List (Bool × String)
  fired : List String
  processorAttached : Bool
  streamCtxOpen : Bool
  streamTracksLive : Bool
  audioLevel : ℚ
deriving DecidableEq

/-- Initial hook state: no socket, `voiceState = 'idle'`, empty store. -/
def init : State :=
  { wsReady := none, connectionsCreated := 0, isConnected := false,
    voiceState := some ("idle"), storeState := StoreState.idle, wakeWord := "",
    queue := PQ.init, msgs := [], fired := [], processorAttached := false,
    streamCtxOpen := false, streamTracksLive := false, audioLevel := 0 }

/-- `mapState` (part_004 lines 191-203).  At runtime the argument is
whatever `data.state` holds, so the domain is an optional string; `none`
(that is, `undefined`) and every unknown string fall to the `default`
branch. -/
def mapState (st : Option String) : StoreState :=
  match st with
  | none => StoreState.idle
  | some v =>
    if v = ("listening_wake_word") then StoreState.listening
    else if v = ("listening_speech") then StoreState.listening
    else if v = ("processing") then StoreState.processing
    else if v = ("speaking") then StoreState.speaking
    else StoreState.idle

/-- JavaScript truthiness of an optional string field: `undefined` and the
empty string are falsy. -/
def truthy (o : Option String) : Option String :=
  match o with
  | some v => if v = ("") then none else some v
  | none => none

/-- The `switch (data.type)` of `handleMessage` (part_004 lines 248-275):
`ready` stores a truthy `wake_word` and notifies `onReady`;
`wake_word_detected` notifies; `transcription` and `response` append to the
conversation and notify when `text` is truthy; `error` notifies when `text`
is truthy; any other tag does nothing.  None of the branches touch
`voiceState` or the store state. -/
def applyTypeActions (e : EventObj) (s : State) : State :=
  if e.type = some ("ready") then
    let s1 :=
      match truthy e.wake_word with
      | some w => { s with wakeWord := w }
      | none => s
    { s1 with fired := s1.fired ++ [("ready")] }
  else if e.type = some ("wake_word_detected") then
    { s with fired := s.fired ++ [("wake_word_detected")] }
  else if e.type = some ("transcription") then
    match truthy e.text with
    | some t => { s with msgs := s.msgs ++ [(true, t)], fired := s.fired ++ [("transcription")] }
    | none => s
  else if e.type = some ("response") then
    match truthy e.text with
    | some t => { s with msgs := s.msgs ++ [(false, t)], fired := s.fired ++ [("response")] }
    | none => s
  else if e.type = some ("error") then
    match truthy e.text with
    | some _ => { s with fired := s.fired ++ [("error")] }
    | none => s
  else s

/-- The body of the `try` block for a parsed text frame: first
`setVoiceState(data.state)` and `setStoreState(mapState(data.state))`,
then the tag switch. -/
def handleParsed (e : EventObj) (s : State) : State :=
  applyTypeActions e { s with voiceState := e.state, storeState := mapState e.state }

/-- `handleMessage` (part_004 lines 233-279): a binary frame is queued for
playback; a text frame that fails `JSON.parse` is caught and only logged;
a parsed text frame is handled by `handleParsed`. -/
def handleMessage (s : State) (m : InMsg) : State :=
  match m with
  | InMsg.binary p => { s with queue := PQ.enqueue s.queue p }
  | InMsg.text TextMsg.malformed => s
  | InMsg.text (TextMsg.parsed e) => handleParsed e s

/-- `connect` (part_004 lines 358-386): an early return when the held
socket is already open; otherwise construct a new WebSocket (counted by
`connectionsCreated`), which starts in the connecting state. -/
def connect (s : State) : State :=
  if s.wsReady = some ReadyState.openState then s
  else
    { s with
      wsReady := some ReadyState.connecting,
      connectionsCreated := s.connectionsCreated + 1 }

/-- `stopStreaming` (part_004 lines 337-355): disconnect the processor,
close the audio context, stop the stream tracks and reset the reported
audio level to 0. -/
def stopStreaming (s : State) : State :=
  { s with
    processorAttached := false, streamCtxOpen := false, streamTracksLive := false,
    audioLevel := 0 }

/-- The `ws.onclose` handler (part_004 lines 377-383), run on every close
of the socket, whether the server or the client initiated it:
`setIsConnected(false)`, `setVoiceState('idle')`, `setStoreState('idle')`,
then `stopStreaming()`. -/
def onCloseHandler (s : State) : State :=
  stopStreaming
    { s with isConnected := false, voiceState := some ("idle"), storeState := StoreState.idle }

/-- Trace of the hook's `voiceState` while a list of inbound messages is
processed in arrival order, starting from `s` (the state before the first
message is included). -/
def statesOf (s : State) : List InMsg → List (Option String)
  | [] => [s.voiceState]
  | m :: ms => s.voiceState :: statesOf (handleMessage s m) ms

/-- The §6 protocol sequence `ready → wake_word_detected → transcription →
response` with the states each event declares. -/
def protocolSeq : List InMsg :=
  [ InMsg.text (TextMsg.parsed
      { type := some ("ready"), state := some ("listening_wake_word"),
        text := none, wake_word := some ("jarvis") }),
    InMsg.text (TextMsg.parsed
      { type := some ("wake_word_detected"), state := some ("listening_speech"),
        text := none, wake_word := none }),
    InMsg.text (TextMsg.parsed
      { type := some ("transcription"), state := some ("processing"),
        text := some ("hello"), wake_word := none }),
    InMsg.text (TextMsg.parsed
      { type := some ("response"), state := some ("speaking"),
        text := some ("hi"), wake_word := none }) ]

end VW

namespace WW

/-- Lower-casing of a transcript, character by character
(`String.prototype.toLowerCase` on the ASCII transcripts produced by the
recognizer). -/
def lcStr (s : List Char) : List Char := s.map Char.toLower

/-- White space as trimmed by `String.prototype.trim`. -/
def isSpace (c : Char) : Bool := c == ' ' || c == '\t' || c == '\n' || c == '\r'

/-- `String.prototype.trim`: drop leading and trailing white space. -/
def trimStr (s : List Char) : List Char :=
  ((s.dropWhile isSpace).reverse.dropWhile isSpace).reverse

/-- Whether the first string starts with the second. -/
def startsWithStr : List Char → List Char → Bool
  | _, [] => true
  | [], _ :: _ => false
  | a :: as, b :: bs => a == b && startsWithStr as bs

/-- Helper for `strIncludes`, scanning the haystack left to right. -/
def includesFrom (needle : List Char) : List Char → Bool
  | [] => needle.isEmpty
  | c :: t => startsWithStr (c :: t) needle || includesFrom needle t

/-- `String.prototype.includes`: substring containment. -/
def strIncludes (hay needle : List Char) : Bool := includesFrom needle hay

/-- Normalisation applied to each alternative in `onresult`:
`transcript.toLowerCase().trim()`. -/
def norm (t : List Char) : List Char := trimStr (lcStr t)

/-- The detection test of `onresult`:
`wakeWords.some(word => transcript.includes(word.toLowerCase()))`. -/
def matchesWakeWords (wakeWords : List (List Char)) (t : List Char) : Bool :=
  wakeWords.any (fun w => strIncludes t (lcStr w))

/-- The inner `for j` loop of `recognition.onresult` over one result's
alternatives: normalise each transcript and stop at the first match. -/
def scanAlternatives (wakeWords : List (List Char)) : List (List Char) → Option (List Char)
  | [] => none
  | alt :: alts =>
    let transcript := norm alt
    if matchesWakeWords wakeWords transcript then some transcript
    else scanAlternatives wakeWords alts

/-- `recognition.onresult` (part_003 lines 343-359): scan the result set in
row-major order; on the first matching alternative the handler invokes
`onWakeWordDetected()` once and returns.  The returned value is the
normalised transcript that triggered detection, `none` when no alternative
matches. -/
def onresultDetect (wakeWords : List (List Char)) : List (List (List Char)) → Option (List Char)
  | [] => none
  | res :: rest =>
    match scanAlternatives wakeWords res with
    | some t => some t
    | none => onresultDetect wakeWords rest

/-- Number of `onWakeWordDetected()` invocations performed by one
`onresult` call. -/
def onresultCallbackCount (wakeWords : List (List Char))
    (results : List (List (List Char))) : ℕ :=
  match onresultDetect wakeWords results with
  | some _ => 1
  | none => 0

/-- `recognition.onend` (part_003 lines 369-381): when the hook is still
enabled and no restart is pending, a restart of the listening cycle is
scheduled with a 300 ms delay; the returned value is the scheduled delay. -/
def onendSchedules (enabled isRestarting : Bool) : Option ℕ :=
  if enabled && !isRestarting then some 300 else none

end WW

/-- One step of a session preserves the invariant `CL.Inv`. -/
theorem inv_step (cfg : CL.Config) (s : CL.State) (e : CL.Event) (h : CL.Inv s) :
    CL.Inv (CL.step cfg s e) := by
  obtain ⟨h1, h2, h3⟩ := h
  cases e <;>
    simp only [CL.step, CL.monitorTick, CL.dataAvailable, CL.enableEffect,
      CL.disableEffect, CL.startListening, CL.stopListening, CL.recorderStop,
      CL.onstop, CL.Inv] <;>
    (repeat' split) <;>
    first
      | exact ⟨h1, h2, h3⟩
      | simp_all

/-- The invariant `CL.Inv` holds after any event sequence from `CL.init`;
in particular the monitor closure's snapshot is false in every session. -/
theorem inv_run (cfg : CL.Config) (es : List CL.Event) :
    CL.Inv (CL.run cfg CL.init es) := by
  have h0 : CL.Inv CL.init := ⟨rfl, by simp [CL.init], by simp [CL.init]⟩
  have hf : ∀ (l : List CL.Event) (s : CL.State),
      CL.Inv s → CL.Inv (l.foldl (CL.step cfg) s) := by
    intro l
    induction l with
    | nil => intro s hs; exact hs
    | cons e t ih => intro s hs; exact ih _ (inv_step cfg s e hs)
  exact hf es CL.init h0

/-- Session whose only above-threshold sample is at t = 0 ms (speech is
below the threshold again by t = 100 ms), with one chunk captured, stopped
via `stopListening` at t = 600 ms. -/
def c1Events : List CL.Event :=
  [CL.Event.start, CL.Event.tick 0 (mkRat 1 10), CL.Event.data,
   CL.Event.tick 100 0, CL.Event.stop 600]

/-- Claim C1 counterexample: a segment whose above-threshold span is at
most 100 ms (the only above-threshold sample is at t = 0, and speech is
below the threshold again by t = 100), far shorter than
`minSpeechDuration = 500`, is nevertheless delivered to `onSpeechEnd` when
the session is stopped at t = 600: `onstop` measures
`Date.now() - speechStartRef.current` = 600 ms from the single
above-threshold sample, and one chunk is buffered, so the delivery test
passes.  (A silence-timeout closure cannot occur at all: the monitor
closure's stale `isSpeaking` snapshot keeps the silence branch dead, so
segments close only via the stop, disable or unmount paths.) -/
theorem shortAboveSpanSegmentIsDelivered :
    (CL.run CL.defaultConfig CL.init c1Events).delivered = [600] ∧
    c1Events.filter (CL.tickAbove CL.defaultConfig) = [CL.Event.tick 0 (mkRat 1 10)] ∧
    100 < CL.defaultConfig.minSpeechDuration := by decide

/-- Claim C1 (amended): the monitor closure's `isSpeaking` snapshot is
false in every session, so the silence-timeout branch is dead — a segment
is closed only by the disable effect, `stopListening` or unmount — and
every enabled above-threshold sample re-runs the open block, re-setting
the speech-start timestamp to the sample's time and clearing the chunk
buffer, regardless of the live `isSpeaking` flag; a below-threshold sample
only publishes the level.  A closed segment is delivered to `onSpeechEnd`
if and only if the time from the most recent above-threshold sample to the
recorder stop is at least `minSpeechDuration` and at least one chunk
arrived after that sample; a segment failing this test is discarded
silently (the delivered list is unchanged, the chunk buffer and timestamps
are simply reset, no error path exists).  In particular a segment whose
above-threshold span is shorter than `minSpeechDuration` can still be
delivered. -/
theorem segmentDeliveryRule (cfg : CL.Config) (now : ℕ) (s : CL.State) :
    (CL.onstop cfg now s).delivered =
      s.delivered ++
        (if cfg.minSpeechDuration ≤ CL.speechDur now s ∧ 0 < s.chunks
         then [CL.speechDur now s] else []) ∧
    (CL.onstop cfg now s).chunks = 0 ∧
    (CL.onstop cfg now s).speechStart = none ∧
    (CL.onstop cfg now s).silenceStart = none ∧
    (CL.monitorTick cfg now (cfg.silenceThreshold + 1)
        { s with
          monitorActive := true, enabled := true, monitorIsSpeaking := false }).speechStart = some now ∧
    (CL.monitorTick cfg now (cfg.silenceThreshold + 1)
        { s with
          monitorActive := true, enabled := true, monitorIsSpeaking := false }).chunks = 0 ∧
    (CL.monitorTick CL.defaultConfig now 0
        { s with
          monitorActive := true, enabled := true, monitorIsSpeaking := false }) =
      { s with
        monitorActive := true, enabled := true, monitorIsSpeaking := false,
        audioLevel := 0 } ∧
    (∀ es : List CL.Event, (CL.run cfg CL.init es).monitorIsSpeaking = false) := by
  have hlt : cfg.silenceThreshold < cfg.silenceThreshold + 1 := lt_add_one _
  have hz : ¬ (CL.defaultConfig.silenceThreshold < (0 : ℚ)) := by decide
  refine ⟨?_, rfl, rfl, rfl, ?_, ?_, ?_, ?_⟩
  · simp only [CL.onstop]
    split <;> simp
  · simp only [CL.monitorTick]
    repeat' split <;> simp_all
  · simp only [CL.monitorTick]
    repeat' split <;> simp_all
  · simp [CL.monitorTick, hz]
  · intro es
    exact (inv_run cfg es).1

/-- Session with an open segment — a single above-threshold sample at
t = 0 opened it and started the recorder, one chunk was captured, and the
recorder is still running — that is disabled at t = 600. -/
def c2Events : List CL.Event :=
  [CL.Event.start, CL.Event.tick 0 (mkRat 1 10), CL.Event.data,
   CL.Event.disable 600]

/-- Claim C2 counterexample: disabling the controller while a segment is
open (the live `isSpeaking` flag is true and the recorder is recording)
does not abandon it — the recorder stop triggered by the `enabled` effect
runs `onstop`, which measures 600 ms since the above-threshold sample at
t = 0 (no later above-threshold sample reset `speechStartRef`) and finds a
buffered chunk, so `onSpeechEnd` is invoked; and the media-stream tracks,
the audio context and the monitor loop all stay live, so no capture
device is released on the disable path. -/
theorem disableDeliversOpenSegment :
    (CL.run CL.defaultConfig CL.init
        [CL.Event.start, CL.Event.tick 0 (mkRat 1 10), CL.Event.data]).isSpeaking = true ∧
    (CL.run CL.defaultConfig CL.init c2Events).delivered = [600] ∧
    (CL.run CL.defaultConfig CL.init c2Events).streamLive = true ∧
    (CL.run CL.defaultConfig CL.init c2Events).contextOpen = true ∧
    (CL.run CL.defaultConfig CL.init c2Events).monitorActive = true := by decide

/-- Claim C2 (amended): disabling the controller mid-segment stops the
recorder and clears the speaking flags and silence timestamp, but the open
segment is still delivered to `onSpeechEnd` whenever the time since the
most recent above-threshold sample (the last reset of `speechStartRef`) is
at least `minSpeechDuration` and a chunk was captured after it
(abandonment only happens for segments failing that test), and the capture
devices are not released on the disable path: the media-stream tracks,
audio context and monitor loop are left exactly as they were (release
happens only in `stopListening`). -/
theorem disableEffectRule (cfg : CL.Config) (now : ℕ) (s : CL.State) :
    (CL.disableEffect cfg now s).enabled = false ∧
    (CL.disableEffect cfg now s).isSpeaking = false ∧
    (CL.disableEffect cfg now s).recorderRecording = false ∧
    (CL.disableEffect cfg now s).streamLive = s.streamLive ∧
    (CL.disableEffect cfg now s).contextOpen = s.contextOpen ∧
    (CL.disableEffect cfg now s).monitorActive = s.monitorActive ∧
    (CL.disableEffect cfg now s).delivered =
      s.delivered ++
        (if s.recorderRecording = true ∧
            cfg.minSpeechDuration ≤ CL.speechDur now s ∧ 0 < s.chunks
         then [CL.speechDur now s] else []) := by
  cases hrec : s.recorderRecording <;>
    simp only [CL.disableEffect, CL.recorderStop, CL.onstop, CL.speechDur, hrec] <;>
    repeat' split <;>
    simp_all [CL.speechDur]

/-- Session in which the store state is set to `'processing'` by a
collaborator (as `useJarvisAPI.sendVoice` does) while the monitor loop is
live, followed by one loud sample. -/
def c4Events : List CL.Event :=
  [CL.Event.start, CL.Event.setStore StoreState.processing, CL.Event.tick 0 (mkRat 1 10)]

/-- Claim C4 counterexample: with the monitor loop running and the
observable store state equal to `'processing'`, a single above-threshold
sample opens a new speech segment and starts the recorder — the per-sample
`monitor` callback never consults the voice state, so the reentrancy guard
of `startListening` does not protect a session that is already running. -/
theorem segmentOpensWhileProcessing :
    (CL.run CL.defaultConfig CL.init
        [CL.Event.start, CL.Event.setStore StoreState.processing]).storeState =
      StoreState.processing ∧
    (CL.run CL.defaultConfig CL.init c4Events).isSpeaking = true ∧
    (CL.run CL.defaultConfig CL.init c4Events).recorderRecording = true ∧
    (CL.run CL.defaultConfig CL.init c4Events).speechStart = some 0 ∧
    (CL.run CL.defaultConfig CL.init c4Events).storeState = StoreState.listening := by
  decide

/-- Claim C4 (amended): the processing/speaking gate exists only at session
start: `startListening` is a no-op whenever the store state is
`'processing'` or `'speaking'` (so a new listening session, and hence a new
capture path, is never acquired in those states), but once the monitor loop
is running a loudness sample above the threshold opens a segment and starts
the recorder regardless of the store state — only the `enabled` flag pauses
detection.  The monitor state pins the closure's `isSpeaking` snapshot to
false, the only value a running loop can hold (`startListening` executes
only while `isListening`, and hence `isSpeaking`, is false); the store
state and all remaining fields are arbitrary. -/
theorem listeningGuardOnlyAtStart (cfg : CL.Config) (now : ℕ) (s : CL.State) :
    CL.startListening { s with storeState := StoreState.processing } =
      { s with storeState := StoreState.processing } ∧
    CL.startListening { s with storeState := StoreState.speaking } =
      { s with storeState := StoreState.speaking } ∧
    (CL.monitorTick cfg now (cfg.silenceThreshold + 1)
        { s with
          monitorActive := true, enabled := true, isSpeaking := false,
          monitorIsSpeaking := false }).isSpeaking =
      true := by
  refine ⟨?_, ?_, ?_⟩
  · simp [CL.startListening]
  · simp [CL.startListening]
  · have h : cfg.silenceThreshold < cfg.silenceThreshold + 1 := lt_add_one _
    simp only [CL.monitorTick, h]
    repeat' split <;> simp_all

/-- Claim C3 (confirmed): the playback queue is strictly sequential and
failure-tolerant — `playNextAudio` never starts an item while one is in
flight; enqueuing during playback only appends (the caller is never
blocked) while enqueuing onto an idle empty queue starts the item at once;
a terminal failure of the playing item immediately starts the next queued
item; and for the scenario `[A, B, C]` with B failing, the start order is
exactly `A, B, C` with outcomes success, failure, success. -/
theorem playbackQueueOrder :
    (∀ (q : List ℕ) (j : ℕ) (log : List ℕ) (flog : List (ℕ × Bool)),
        PQ.playNextAudio ⟨q, some j, log, flog⟩ = ⟨q, some j, log, flog⟩) ∧
    (∀ (q : List ℕ) (i j : ℕ) (log : List ℕ) (flog : List (ℕ × Bool)),
        PQ.enqueue ⟨q, some j, log, flog⟩ i = ⟨q ++ [i], some j, log, flog⟩) ∧
    (∀ (i : ℕ) (log : List ℕ) (flog : List (ℕ × Bool)),
        PQ.enqueue ⟨[], none, log, flog⟩ i = ⟨[], some i, log ++ [i], flog⟩) ∧
    (∀ (rest : List ℕ) (i j : ℕ) (log : List ℕ) (flog : List (ℕ × Bool)),
        PQ.finishFail ⟨j :: rest, some i, log, flog⟩ =
          ⟨rest, some j, log ++ [j], flog ++ [(i, false)]⟩) ∧
    (PQ.run PQ.init
        [PQ.Event.enq 10, PQ.Event.enq 20, PQ.Event.enq 30,
         PQ.Event.ended, PQ.Event.failed, PQ.Event.ended]).startedLog = [10, 20, 30] ∧
    (PQ.run PQ.init
        [PQ.Event.enq 10, PQ.Event.enq 20, PQ.Event.enq 30,
         PQ.Event.ended, PQ.Event.failed, PQ.Event.ended]).finishedLog =
      [(10, true), (20, false), (30, true)] := by
  refine ⟨?_, ?_, ?_, ?_, by decide, by decide⟩
  · intro q j log flog
    simp [PQ.playNextAudio]
  · intro q i j log flog
    simp [PQ.enqueue, PQ.playNextAudio]
  · intro i log flog
    simp [PQ.enqueue, PQ.playNextAudio]
  · intro rest i j log flog
    simp [PQ.finishFail, PQ.playNextAudio]

/-- The tag switch of `handleMessage` writes neither the hook's
`voiceState` nor the store state. -/
theorem applyTypeActions_projections (e : VW.EventObj) (s : VW.State) :
    (VW.applyTypeActions e s).voiceState = s.voiceState ∧
    (VW.applyTypeActions e s).storeState = s.storeState := by
  unfold VW.applyTypeActions
  dsimp only
  repeat' split
  all_goals simp

/-- Claim C5 (confirmed): every parsed control event sets the session's
voice state to exactly the state the event declares (and the store state to
its image under `mapState`), and processing the §6 sequence `ready →
wake_word_detected → transcription → response` in arrival order drives the
voice state through exactly `idle, listening_wake_word, listening_speech,
processing, speaking`, with no state skipped or reordered. -/
theorem transportEventOrder :
    (∀ (s : VW.State) (e : VW.EventObj),
        (VW.handleParsed e s).voiceState = e.state ∧
        (VW.handleParsed e s).storeState = VW.mapState e.state) ∧
    VW.statesOf VW.init VW.protocolSeq =
      [some ("idle"), some ("listening_wake_word"), some ("listening_speech"),
       some ("processing"), some ("speaking")] := by
  constructor
  · intro s e
    have h := applyTypeActions_projections e
      { s with voiceState := e.state, storeState := VW.mapState e.state }
    exact ⟨by rw [VW.handleParsed, h.1], by rw [VW.handleParsed, h.2]⟩
  · decide

/-- A transport session mid-conversation: socket open, state `'speaking'`. -/
def speakingSession : VW.State :=
  { VW.init with
    wsReady := some VW.ReadyState.openState, isConnected := true,
    voiceState := some ("speaking"), storeState := StoreState.speaking }

/-- Claim C7 counterexample: the text frame `{"type":"x"}` is malformed
under the §6 protocol (it is none of the protocol's message forms), yet it
is not ignored: `JSON.parse` succeeds, so `handleMessage` stores the absent
`state` field into `voiceState` and forces the store state from
`'speaking'` to `'idle'` — only frames that fail JSON parsing reach the
log-and-ignore catch. -/
theorem nonProtocolJsonChangesState :
    speakingSession.storeState = StoreState.speaking ∧
    (VW.handleMessage speakingSession
        (VW.InMsg.text (VW.TextMsg.parsed
          { type := some ("x"), state := none, text := none,
            wake_word := none }))).storeState = StoreState.idle ∧
    (VW.handleMessage speakingSession
        (VW.InMsg.text (VW.TextMsg.parsed
          { type := some ("x"), state := none, text := none,
            wake_word := none }))).voiceState = none := by decide

/-- Claim C7 (amended): an inbound text frame that fails JSON parsing is
logged and ignored — the handler state, including the connection and the
voice state, is completely unchanged and no exception escapes; but a text
frame that parses as JSON while carrying no `state` field is not ignored:
it clears `voiceState` and forces the store state to `'idle'` regardless of
its `type` tag. -/
theorem parseFailureIgnored :
    (∀ s : VW.State, VW.handleMessage s (VW.InMsg.text VW.TextMsg.malformed) = s) ∧
    (∀ (s : VW.State) (t : Option String),
        (VW.handleParsed
            { type := t, state := none, text := none, wake_word := none } s).storeState =
          StoreState.idle ∧
        (VW.handleParsed
            { type := t, state := none, text := none, wake_word := none } s).voiceState =
          none) := by
  constructor
  · intro s
    rfl
  · intro s t
    have h := applyTypeActions_projections
      { type := t, state := none, text := none, wake_word := none }
      { s with voiceState := none, storeState := VW.mapState none }
    refine ⟨?_, ?_⟩
    · rw [VW.handleParsed, h.2]
      rfl
    · rw [VW.handleParsed, h.1]

/-- Claim C8 (confirmed): `connect()` is idempotent on an open connection —
when the held socket's ready state is open, the call returns without
constructing a WebSocket and without changing any observable state. -/
theorem connectIdempotentWhenOpen (s : VW.State) :
    VW.connect { s with wsReady := some VW.ReadyState.openState } =
      { s with wsReady := some VW.ReadyState.openState } := by
  simp [VW.connect]

/-- Claim C9 (confirmed): the store voice state is four-valued and
`mapState` surfaces both protocol listening states as `'listening'`,
`'processing'` and `'speaking'` as themselves, and everything else —
an absent state field or any string other than the five protocol states —
as `'idle'`. -/
theorem mapStateProjection :
    VW.mapState (some ("listening_wake_word")) = StoreState.listening ∧
    VW.mapState (some ("listening_speech")) = StoreState.listening ∧
    VW.mapState (some ("processing")) = StoreState.processing ∧
    VW.mapState (some ("speaking")) = StoreState.speaking ∧
    VW.mapState none = StoreState.idle ∧
    (∀ v : String,
        v ∉ [("idle" : String), ("listening_wake_word"), ("listening_speech"),
             ("processing"), ("speaking")] →
        VW.mapState (some v) = StoreState.idle) := by
  refine ⟨rfl, rfl, rfl, rfl, rfl, ?_⟩
  intro v h
  simp only [List.mem_cons, List.mem_singleton, not_or] at h
  obtain ⟨_, h2, h3, h4, h5⟩ := h
  simp [VW.mapState, h2, h3, h4, h5]

/-- Witness for claim C9 at the unknown state string `"garbage"`. -/
theorem mapStateProjectionWitness :
    VW.mapState (some ("garbage")) = StoreState.idle :=
  mapStateProjection.2.2.2.2.2 ("garbage") (by decide)

/-- Claim C10 (confirmed): the `ws.onclose` handler — which runs on every
close of the socket, server-initiated or not — releases the streaming
capture path (processor detached, audio context closed, stream tracks
stopped), resets the reported audio level to 0, and forces both the hook's
voice state and the store state to `'idle'`. -/
theorem closeForcesIdleAndReleases (s : VW.State) :
    (VW.onCloseHandler s).isConnected = false ∧
    (VW.onCloseHandler s).voiceState = some ("idle") ∧
    (VW.onCloseHandler s).storeState = StoreState.idle ∧
    (VW.onCloseHandler s).processorAttached = false ∧
    (VW.onCloseHandler s).streamCtxOpen = false ∧
    (VW.onCloseHandler s).streamTracksLive = false ∧
    (VW.onCloseHandler s).audioLevel = 0 :=
  ⟨rfl, rfl, rfl, rfl, rfl, rfl, rfl⟩

/-- The inner alternatives loop of `onresult` returns the first normalised
transcript satisfying the wake-word test, in scan order. -/
theorem scanAlternatives_eq_find (ww : List (List Char)) (alts : List (List Char)) :
    WW.scanAlternatives ww alts =
      (alts.map WW.norm).find? (WW.matchesWakeWords ww) := by
  induction alts with
  | nil => rfl
  | cons a t ih =>
    rw [WW.scanAlternatives, List.map_cons, List.find?_cons]
    cases h : WW.matchesWakeWords ww (WW.norm a) <;> simp [h, ih]

/-- The full `onresult` scan returns the first normalised transcript, in
row-major scan order over the result set, satisfying the wake-word test. -/
theorem onresultDetect_eq_find (ww : List (List Char)) (res : List (List (List Char))) :
    WW.onresultDetect ww res =
      (res.flatten.map WW.norm).find? (WW.matchesWakeWords ww) := by
  induction res with
  | nil => rfl
  | cons r rest ih =>
    rw [WW.onresultDetect, scanAlternatives_eq_find, ih, List.flatten_cons,
      List.map_append, List.find?_append]
    cases h : (r.map WW.norm).find? (WW.matchesWakeWords ww) <;> simp [h]

/-- Claim C6 (confirmed): in one recognition cycle the detection callback
fires at most once, and the alternative that triggers it is the first one
in scan order whose lower-cased, trimmed transcript contains a configured
trigger phrase as a case-insensitive substring; in the spec's scenario
(alternatives `hey there, hey jarvis, jarvis please`, trigger `jarvis`) it
fires exactly once, on `hey jarvis`; and at cycle end the `onend` handler
schedules a new listening cycle with a 300 ms delay exactly when the hook
is still enabled (and no restart is already pending). -/
theorem wakeWordDetectionRule :
    (∀ (ww : List (List Char)) (res : List (List (List Char))),
        WW.onresultCallbackCount ww res ≤ 1) ∧
    (∀ (ww : List (List Char)) (res : List (List (List Char))),
        WW.onresultDetect ww res =
          (res.flatten.map WW.norm).find? (WW.matchesWakeWords ww)) ∧
    WW.onresultDetect [("jarvis").data]
        [[("hey there").data, ("hey jarvis").data, ("jarvis please").data]] =
      some (("hey jarvis").data) ∧
    WW.onresultCallbackCount [("jarvis").data]
        [[("hey there").data, ("hey jarvis").data, ("jarvis please").data]] = 1 ∧
    WW.onendSchedules true false = some 300 ∧
    WW.onendSchedules false false = none := by
  refine ⟨?_, onresultDetect_eq_find, by decide, by decide, rfl, rfl⟩
  intro ww res
  rw [WW.onresultCallbackCount]
  cases WW.onresultDetect ww res <;> simp
